import Mathlib

/-!
Verification of the event ingestion + windowed risk-scoring + fan-out pipeline
of the AI proctoring backend (`backend/models/scoring.py`,
`backend/routers/websocket.py`, `backend/utils/database.py`).

Events are modelled as records carrying every field the scorer reads
(`event.get(...)` in the Python source); fields that a given category does not
use keep their Python default (`face_count` defaults to 1, numeric fields to 0,
boolean fields to false, string-valued fields to `none`).  Timestamps are
modelled as natural numbers (seconds); the source stores ISO-8601 strings and
compares them as `datetime` values, which is order-isomorphic.
-/

namespace AIProctor

/-- Session status, from `SessionStatus` in `backend/models/events.py`. -/
inductive SessionStatus where
  | NORMAL
  | SUSPICIOUS
  | FLAGGED
deriving DecidableEq, Repr

/-- An ingested event, holding every field read by the scorer.
`gaze_direction` and `event_type` are `Option String` because the source reads
them with `dict.get`, which yields `None` when the key is absent. -/
structure Event where
  session_id : String
  timestamp : Nat
  gaze_direction : Option String := none
  face_count : Nat := 1
  head_pitch : Int := 0
  head_yaw : Int := 0
  speech_detected : Bool := false
  multiple_voices : Bool := false
  background_noise_level : Nat := 0
  event_type : Option String := none
deriving DecidableEq, Repr

/-- The per-category output of `RiskScorer._get_recent_events`: the raw
category buffers after filtering (the `scores` buffer is skipped by the
source's `if event_type == 'scores': continue`). -/
structure RecentEvents where
  eye_tracking : List Event
  audio : List Event
  screen : List Event
  system : List Event
deriving DecidableEq, Repr

/-- A score record as returned by `RiskScorer.calculate_score`. -/
structure ScoreRecord where
  session_id : String
  score : Nat
  status : SessionStatus
  flags : List String
  timestamp : Nat
  count_eye_tracking : Nat
  count_audio : Nat
  count_screen : Nat
  count_system : Nat
deriving DecidableEq, Repr

/-- The in-memory event store `events_db` from `backend/utils/database.py`:
one buffer per raw category plus the score-record buffer. -/
structure EventsDb where
  eye_tracking : List Event
  audio : List Event
  screen : List Event
  system : List Event
  scores : List ScoreRecord
deriving Repr

/-- The inner loop of `RiskScorer._get_recent_events`: walk one category
buffer in insertion order and keep events of the queried session whose
timestamp is strictly greater than the cutoff
(`event.get('session_id') == session_id and
datetime.fromisoformat(event['timestamp']) > cutoff_time`). -/
def getRecentList (sid : String) (cutoff : Nat) : List Event → List Event
  | [] => []
  | e :: es =>
      if e.session_id = sid ∧ cutoff < e.timestamp then
        e :: getRecentList sid cutoff es
      else
        getRecentList sid cutoff es

/-- `RiskScorer._get_recent_events`: apply the window filter to every raw
category buffer, skipping the `scores` buffer. -/
def get_recent_events (sid : String) (db : EventsDb) (cutoff : Nat) :
    RecentEvents where
  eye_tracking := getRecentList sid cutoff db.eye_tracking
  audio := getRecentList sid cutoff db.audio
  screen := getRecentList sid cutoff db.screen
  system := getRecentList sid cutoff db.system

/-! ## Risk scorer (`backend/models/scoring.py`) -/

/-- `RiskScorer.SUSPICIOUS_THRESHOLD`. -/
def SUSPICIOUS_THRESHOLD : Nat := 6

/-- `RiskScorer.FLAGGED_THRESHOLD`. -/
def FLAGGED_THRESHOLD : Nat := 11

/-- `RiskScorer.GAZE_WEIGHTS`: per-direction weight, `none` for a direction
outside the table (`if gaze in self.GAZE_WEIGHTS`). -/
def GAZE_WEIGHTS : String → Option Nat
  | "left" => some 2
  | "right" => some 2
  | "down" => some 3
  | "up" => some 1
  | "center" => some 0
  | _ => none

/-- `RiskScorer.SCREEN_EVENT_WEIGHTS`. -/
def SCREEN_EVENT_WEIGHTS : String → Option Nat
  | "tab_change" => some 5
  | "copy" => some 7
  | "paste" => some 7
  | "window_blur" => some 4
  | "fullscreen_exit" => some 8
  | _ => none

/-- The gaze contribution of one eye-tracking event: the table weight when the
direction is present and in `GAZE_WEIGHTS`, else 0 (no score change). -/
def eyeGazeScore (e : Event) : Nat :=
  match e.gaze_direction with
  | some g => (GAZE_WEIGHTS g).getD 0
  | none => 0

/-- Head-movement test of `_score_eye_tracking`:
`abs(pitch) > 30 or abs(yaw) > 45`. -/
def headMovementSuspicious (e : Event) : Prop :=
  30 < e.head_pitch.natAbs ∨ 45 < e.head_yaw.natAbs

instance (e : Event) : Decidable (headMovementSuspicious e) := by
  unfold headMovementSuspicious
  infer_instance

/-- Score contribution of one eye-tracking event in `_score_eye_tracking`:
gaze weight, plus 10 when more than one face, plus 1 on suspicious head pose. -/
def eyeEventScore (e : Event) : Nat :=
  eyeGazeScore e
    + (if 1 < e.face_count then 10 else 0)
    + (if headMovementSuspicious e then 1 else 0)

/-- `RiskScorer._score_eye_tracking`: total eye score, flags, and the
(gaze_violations, multiple_faces, head_movement) counters. -/
def score_eye_tracking (events : List Event) :
    Nat × List String × Nat × Nat × Nat :=
  let score := (events.map eyeEventScore).sum
  let gaze_violations := events.countP (fun e => decide (0 < eyeGazeScore e))
  let multiple_faces := events.countP (fun e => decide (1 < e.face_count))
  let head_movement := events.countP (fun e => decide (headMovementSuspicious e))
  let flags :=
    (if 3 < gaze_violations then
      ["Excessive gaze movement (" ++ toString gaze_violations ++ " violations)"]
     else []) ++
    (if 0 < multiple_faces then
      ["Multiple faces detected (" ++ toString multiple_faces ++ " times)"]
     else []) ++
    (if 2 < head_movement then ["Suspicious head movement pattern"] else [])
  (score, flags, gaze_violations, multiple_faces, head_movement)

/-- Score contribution of one audio event in `_score_audio`:
3 for speech, 5 for multiple voices, 2 for background noise above 70. -/
def audioEventScore (e : Event) : Nat :=
  (if e.speech_detected then 3 else 0)
    + (if e.multiple_voices then 5 else 0)
    + (if 70 < e.background_noise_level then 2 else 0)

/-- `RiskScorer._score_audio`: total audio score, flags, and the
(speech_events, multiple_voices, noise_violations) counters. -/
def score_audio (events : List Event) :
    Nat × List String × Nat × Nat × Nat :=
  let score := (events.map audioEventScore).sum
  let speech_count := events.countP (fun e => e.speech_detected)
  let voice_count := events.countP (fun e => e.multiple_voices)
  let noise_violations :=
    events.countP (fun e => decide (70 < e.background_noise_level))
  let flags :=
    (if 0 < speech_count then
      ["Speech detected (" ++ toString speech_count ++ " times)"]
     else []) ++
    (if 0 < voice_count then
      ["Multiple voices detected (" ++ toString voice_count ++ " times)"]
     else []) ++
    (if 2 < noise_violations then ["High background noise"] else [])
  (score, flags, speech_count, voice_count, noise_violations)

/-- Score contribution of one screen event in `_score_screen`: the table
weight of its `event_type`, 0 when the type is absent or unknown. -/
def screenEventScore (e : Event) : Nat :=
  match e.event_type with
  | some t => (SCREEN_EVENT_WEIGHTS t).getD 0
  | none => 0

/-- `RiskScorer._score_screen`: total screen score, flags, and the
(tab_changes, copy_paste, focus_loss) counters. -/
def score_screen (events : List Event) :
    Nat × List String × Nat × Nat × Nat :=
  let score := (events.map screenEventScore).sum
  let tab_changes := events.countP (fun e => e.event_type == some "tab_change")
  let copy_count := events.countP (fun e => e.event_type == some "copy")
  let paste_count := events.countP (fun e => e.event_type == some "paste")
  let blur_count := events.countP (fun e => e.event_type == some "window_blur")
  let copy_paste := copy_count + paste_count
  let flags :=
    (if 0 < tab_changes then
      ["Tab switching detected (" ++ toString tab_changes ++ " times)"]
     else []) ++
    (if 0 < copy_paste then
      ["Copy/paste activity (" ++ toString copy_paste ++ " times)"]
     else []) ++
    (if 1 < blur_count then ["Frequent window focus loss"] else [])
  (score, flags, tab_changes, copy_paste, blur_count)

/-- Python truthiness of an optional string (`if prev_gaze ...`):
`None` and the empty string are falsy. -/
def truthy : Option String → Bool
  | none => false
  | some s => s ≠ ""

/-- The gaze-change counter of `_detect_patterns` pattern 1: walk the
eye-tracking events keeping the previous gaze, counting steps where the
previous gaze is truthy, the current differs from it, and the current is not
`"center"`.  The initial previous gaze is `none` (`prev_gaze = None`). -/
def countGazeChanges (prev : Option String) : List Event → Nat
  | [] => 0
  | e :: es =>
      (if truthy prev ∧ e.gaze_direction ≠ prev ∧
          e.gaze_direction ≠ some "center" then 1 else 0)
        + countGazeChanges e.gaze_direction es

/-- Pattern 1 of `_detect_patterns` (rapid gaze switching): evaluated only
when the window holds more than 5 eye-tracking events; adds 3 and one flag
when the gaze-change count exceeds 3. -/
def rapidGazePattern (eye_events : List Event) : Nat × List String :=
  if 5 < eye_events.length then
    if 3 < countGazeChanges none eye_events then
      (3, ["Rapid gaze switching pattern detected"])
    else (0, [])
  else (0, [])

/-- The adjacent-pair counter of `_detect_patterns` pattern 2, run on the
timestamp-sorted screen events: pairs where the first is a `tab_change`, the
second a `copy` or `paste`, and the timestamp difference is under 5 seconds. -/
def countTabCopyPairs : List Event → Nat
  | e1 :: e2 :: rest =>
      (if e1.event_type = some "tab_change" ∧
          (e2.event_type = some "copy" ∨ e2.event_type = some "paste") ∧
          e2.timestamp - e1.timestamp < 5 then 1 else 0)
        + countTabCopyPairs (e2 :: rest)
  | _ => 0

/-- The in-place `screen_events.sort(key=lambda x: x['timestamp'])` of
`_detect_patterns`: a stable sort by timestamp. -/
def sortScreenEvents (events : List Event) : List Event :=
  events.insertionSort (fun a b => a.timestamp ≤ b.timestamp)

/-- `RiskScorer._detect_patterns`: pattern score and flags.  Pattern 2 adds 5
and one flag instance per qualifying adjacent pair of the sorted screen
events.  Also returns the window with its screen list sorted, because the
source sorts that list in place (it is the list built by
`_get_recent_events`, never the store's buffer). -/
def detect_patterns (recent : RecentEvents) :
    (Nat × List String) × RecentEvents :=
  let (gazeScore, gazeFlags) := rapidGazePattern recent.eye_tracking
  let sortedScreen := sortScreenEvents recent.screen
  let pairs := countTabCopyPairs sortedScreen
  ((gazeScore + 5 * pairs,
    gazeFlags ++ List.replicate pairs "Suspicious tab-change followed by copy/paste"),
   { recent with screen := sortedScreen })

/-- The status classification at the end of `calculate_score`:
`score >= 11 → FLAGGED`, `score >= 6 → SUSPICIOUS`, else `NORMAL`. -/
def statusOf (score : Nat) : SessionStatus :=
  if FLAGGED_THRESHOLD ≤ score then SessionStatus.FLAGGED
  else if SUSPICIOUS_THRESHOLD ≤ score then SessionStatus.SUSPICIOUS
  else SessionStatus.NORMAL

/-- `RiskScorer.calculate_score`, state-passing form.  Returns the score
record together with the final state of the window map (whose screen list was
sorted in place by `_detect_patterns`) and the final state of the event store.
The store passes through unchanged: the scorer only reads it —
`_get_recent_events` builds fresh filtered lists, and the single in-place
mutation in the source (the screen sort) targets those fresh lists. -/
def calculate_score_full (sid : String) (db : EventsDb) (now : Nat) :
    ScoreRecord × RecentEvents × EventsDb :=
  let cutoff := now - 10
  let recent := get_recent_events sid db cutoff
  let (eyeScore, eyeFlags, _, _, _) := score_eye_tracking recent.eye_tracking
  let (audioScore, audioFlags, _, _, _) := score_audio recent.audio
  let (screenScore, screenFlags, _, _, _) := score_screen recent.screen
  let ((patternScore, patternFlags), recent2) := detect_patterns recent
  let score := eyeScore + audioScore + screenScore + patternScore
  ({ session_id := sid
     score := score
     status := statusOf score
     flags := eyeFlags ++ audioFlags ++ screenFlags ++ patternFlags
     timestamp := now
     count_eye_tracking := recent2.eye_tracking.length
     count_audio := recent2.audio.length
     count_screen := recent2.screen.length
     count_system := recent2.system.length },
   recent2, db)

/-- `RiskScorer.calculate_score`: the score record alone. -/
def calculate_score (sid : String) (db : EventsDb) (now : Nat) : ScoreRecord :=
  (calculate_score_full sid db now).1

/-! ## Event-store capacity (`process_event` and `score_calculator` in
`backend/routers/websocket.py`) -/

/-- The raw-buffer append of `process_event`: append at the tail, then
`if len(events_db[event_type]) > 1000: events_db[event_type] =
events_db[event_type][-500:]` — one compaction to the last 500 entries. -/
def appendRawEvent (buf : List Event) (e : Event) : List Event :=
  if 1000 < (buf ++ [e]).length then
    (buf ++ [e]).drop ((buf ++ [e]).length - 500)
  else buf ++ [e]

/-- The score-buffer append of `score_calculator`: append at the tail, then
`if len(events_db["scores"]) > 100: events_db["scores"] =
events_db["scores"][-100:]`. -/
def appendScoreRecord (buf : List ScoreRecord) (r : ScoreRecord) :
    List ScoreRecord :=
  if 100 < (buf ++ [r]).length then
    (buf ++ [r]).drop ((buf ++ [r]).length - 100)
  else buf ++ [r]

/-! ## Connection manager (`ConnectionManager` in
`backend/routers/websocket.py`)

Connections are identified by natural numbers.  Whether a `send_text` to a
given connection raises is abstracted by a failure oracle `fails`. -/

/-- The fan-out loop of `ConnectionManager.broadcast`: for each registered
connection in order, try to send; a failure appends the connection to the
`disconnected` list instead of delivering.  Returns
(connections the message was delivered to, `disconnected`). -/
def broadcastLoop (fails : Nat → Bool) : List Nat → List Nat × List Nat
  | [] => ([], [])
  | c :: cs =>
      let (delivered, disconnected) := broadcastLoop fails cs
      if fails c then (delivered, c :: disconnected)
      else (c :: delivered, disconnected)

/-- The cleanup loop of `broadcast`: `for conn in disconnected:
self.disconnect(conn)`, where `disconnect` removes the first occurrence of the
connection from `active_connections` (Python `list.remove`). -/
def removeDisconnected (conns : List Nat) (disconnected : List Nat) :
    List Nat :=
  disconnected.foldl (fun acc c => acc.erase c) conns

/-- `ConnectionManager.broadcast` as a whole: the delivered set and the
`active_connections` list after pruning the failed connections. -/
def broadcast (conns : List Nat) (fails : Nat → Bool) :
    List Nat × List Nat :=
  ((broadcastLoop fails conns).1,
   removeDisconnected conns (broadcastLoop fails conns).2)

/-! ## Session registry (`active_sessions` and `websocket_endpoint` in
`backend/routers/websocket.py`) -/

/-- One value of the `active_sessions` dict.  The dict literal written on
connect has no `end_time` key; `end_time` is added on disconnect — hence the
`Option`.  The `websocket` entry is modelled by the connection identifier. -/
structure SessionRec where
  start_time : Nat
  websocket : Nat
  event_count : Nat
  last_activity : Nat
  end_time : Option Nat := none
deriving DecidableEq, Repr

/-- Python dict assignment `active_sessions[session_id] = rec`: replace the
value in place when the key exists (keeping its position), else append. -/
def setSession (sid : String) (rec : SessionRec) : List (String × SessionRec) →
    List (String × SessionRec)
  | [] => [(sid, rec)]
  | (k, v) :: rest =>
      if k = sid then (sid, rec) :: rest
      else (k, v) :: setSession sid rec rest

/-- The session initialisation in `websocket_endpoint` on connect:
`active_sessions[session_id] = {"start_time": now, "websocket": ws,
"event_count": 0, "last_activity": now}` — a fresh dict with no `end_time`
key, overwriting any previous record for the same id. -/
def connectSession (reg : List (String × SessionRec)) (sid : String)
    (ws : Nat) (t : Nat) : List (String × SessionRec) :=
  setSession sid { start_time := t, websocket := ws, event_count := 0,
                   last_activity := t } reg

/-- The disconnect handler in `websocket_endpoint`:
`active_sessions[session_id]["end_time"] = now` — the record stays in the
dict, only gaining an `end_time`. -/
def markEnded (reg : List (String × SessionRec)) (sid : String) (t : Nat) :
    List (String × SessionRec) :=
  reg.map (fun p => if p.1 = sid then (p.1, { p.2 with end_time := some t })
                    else p)

/-- The per-tick session selection of `score_calculator`:
`for session_id in list(active_sessions.keys())` — every key of the dict,
with no filter on `end_time`. -/
def tickScoredIds (reg : List (String × SessionRec)) : List String :=
  reg.map Prod.fst

/-! ## A spec-side definition, for the refinement comparison of the
gaze-change counter -/

/-- The rapid-gaze transition count as the spec words it: over consecutive
pairs of eye-tracking events, count those where the gaze direction changes
and the new direction is not `"center"`.  To be compared with
`countGazeChanges`, the counter translated from the source. -/
def specGazeTransitions (events : List Event) : Nat :=
  (events.zip events.tail).countP
    (fun p => decide (p.2.gaze_direction ≠ p.1.gaze_direction ∧
                      p.2.gaze_direction ≠ some "center"))

/-- The gaze directions of the data model (`GazeDirection` in
`backend/models/events.py`). -/
def validGazeValues : List (Option String) :=
  [some "center", some "left", some "right", some "up", some "down"]

/-! ## Concrete inputs used by counterexamples and witnesses -/

/-- An event with every optional field at its default. -/
def ev0 : Event := { session_id := "s", timestamp := 0 }

/-- A score record used as a concrete input. -/
def rec0 : ScoreRecord :=
  { session_id := "s", score := 0, status := SessionStatus.NORMAL, flags := [],
    timestamp := 0, count_eye_tracking := 0, count_audio := 0,
    count_screen := 0, count_system := 0 }

/-- The empty event store. -/
def emptyDb : EventsDb := ⟨[], [], [], [], []⟩

/-- A `tab_change` screen event at second 15. -/
def tabEv : Event := { session_id := "s", timestamp := 15,
                       event_type := some "tab_change" }

/-- A `copy` screen event 3 seconds after `tabEv`. -/
def copyEv : Event := { session_id := "s", timestamp := 18,
                        event_type := some "copy" }

/-- A store holding exactly the tab-change/copy pair of the spec's example. -/
def dbTabCopy : EventsDb := { emptyDb with screen := [tabEv, copyEv] }

/-- An event of session `"s"` with timestamp exactly 7. -/
def evAt7 : Event := { session_id := "s", timestamp := 7 }

/-- Eye-tracking events looking left, right, left (seconds 12, 13, 14). -/
def eyeL : Event := { session_id := "s", timestamp := 12,
                      gaze_direction := some "left" }

def eyeR : Event := { session_id := "s", timestamp := 13,
                      gaze_direction := some "right" }

def eyeL2 : Event := { session_id := "s", timestamp := 14,
                       gaze_direction := some "left" }

/-- A store holding only the three-event left/right/left gaze window. -/
def dbGaze3 : EventsDb := { emptyDb with eye_tracking := [eyeL, eyeR, eyeL2] }

/-- Six alternating-gaze events: left, right, left, right, left, right. -/
def eyeAlternating : List Event :=
  [{ session_id := "s", timestamp := 11, gaze_direction := some "left" },
   { session_id := "s", timestamp := 12, gaze_direction := some "right" },
   { session_id := "s", timestamp := 13, gaze_direction := some "left" },
   { session_id := "s", timestamp := 14, gaze_direction := some "right" },
   { session_id := "s", timestamp := 15, gaze_direction := some "left" },
   { session_id := "s", timestamp := 16, gaze_direction := some "right" }]

/-- The same six events grouped by direction: a permutation of
`eyeAlternating` with only one counted transition. -/
def eyeGrouped : List Event :=
  [{ session_id := "s", timestamp := 11, gaze_direction := some "left" },
   { session_id := "s", timestamp := 13, gaze_direction := some "left" },
   { session_id := "s", timestamp := 15, gaze_direction := some "left" },
   { session_id := "s", timestamp := 12, gaze_direction := some "right" },
   { session_id := "s", timestamp := 14, gaze_direction := some "right" },
   { session_id := "s", timestamp := 16, gaze_direction := some "right" }]

/-- A registry holding one session `"s"` that connected at second 1 and
disconnected at second 5 (so its `end_time` is set). -/
def regEnded : List (String × SessionRec) :=
  markEnded (connectSession [] "s" 0 1) "s" 5

/-! # Theorems -/

/-! ## Window selection (C2) -/

theorem getRecentList_eq_filter (sid : String) (cutoff : Nat) (l : List Event) :
    getRecentList sid cutoff l =
      l.filter (fun e => decide (e.session_id = sid ∧ cutoff < e.timestamp)) := by
  induction l with
  | nil => rfl
  | cons e es ih =>
      by_cases h : e.session_id = sid ∧ cutoff < e.timestamp
      · simp [getRecentList, List.filter, h, ih]
      · simp [getRecentList, List.filter, h, ih]

theorem mem_getRecentList {sid : String} {cutoff : Nat} {l : List Event}
    {e : Event} :
    e ∈ getRecentList sid cutoff l ↔
      e ∈ l ∧ e.session_id = sid ∧ cutoff < e.timestamp := by
  rw [getRecentList_eq_filter]
  simp [List.mem_filter, and_assoc]

theorem getRecentList_sublist (sid : String) (cutoff : Nat) (l : List Event) :
    (getRecentList sid cutoff l).Sublist l := by
  rw [getRecentList_eq_filter]
  exact List.filter_sublist l

/-- C2 counterexample: a stored event of the queried session whose timestamp
is exactly the cutoff `since` is NOT returned by the window-selection query,
contradicting the claim that an event with timestamp equal to `since` is
returned — the source compares with strict `>`. -/
theorem C2_counterexample_boundary_event_excluded :
    evAt7.session_id = "s" ∧ evAt7.timestamp = 7 ∧ evAt7 ∈ [evAt7] ∧
      evAt7 ∉ getRecentList "s" 7 [evAt7] := by
  decide

/-- C2 (amended): the window-selection query over one category buffer returns
exactly the stored events whose session_id equals the queried session and
whose timestamp is STRICTLY GREATER than the cutoff `since` (an event with
timestamp exactly `since` is excluded), preserving insertion order; it never
returns an event with timestamp ≤ `since` or from a different session. -/
theorem C2_recent_window_filter (sid : String) (cutoff : Nat) (l : List Event)
    (e : Event) :
    getRecentList sid cutoff l =
      l.filter (fun x => decide (x.session_id = sid ∧ cutoff < x.timestamp))
    ∧ (e ∈ getRecentList sid cutoff l ↔
        e ∈ l ∧ e.session_id = sid ∧ cutoff < e.timestamp)
    ∧ (getRecentList sid cutoff l).Sublist l :=
  ⟨getRecentList_eq_filter sid cutoff l, mem_getRecentList,
   getRecentList_sublist sid cutoff l⟩

/-- Witness for C2: the amended characterisation evaluated on the concrete
one-event buffer at the cutoff boundary. -/
theorem C2_recent_window_filter_witness :
    (getRecentList "s" 7 [evAt7] =
      [evAt7].filter (fun x => decide (x.session_id = "s" ∧ 7 < x.timestamp))
    ∧ (evAt7 ∈ getRecentList "s" 7 [evAt7] ↔
        evAt7 ∈ [evAt7] ∧ evAt7.session_id = "s" ∧ 7 < evAt7.timestamp)
    ∧ (getRecentList "s" 7 [evAt7]).Sublist [evAt7]) :=
  C2_recent_window_filter "s" 7 [evAt7] evAt7

/-! ## Status thresholds (C3) -/

theorem statusOf_iff (n : Nat) :
    (statusOf n = SessionStatus.FLAGGED ↔ 11 ≤ n)
    ∧ (statusOf n = SessionStatus.SUSPICIOUS ↔ 6 ≤ n ∧ n < 11)
    ∧ (statusOf n = SessionStatus.NORMAL ↔ n < 6) := by
  unfold statusOf FLAGGED_THRESHOLD SUSPICIOUS_THRESHOLD
  split_ifs with h1 h2
  all_goals refine ⟨?_, ?_, ?_⟩
  all_goals simp_all
  all_goals omega

theorem calculate_score_status_eq (sid : String) (db : EventsDb) (now : Nat) :
    (calculate_score sid db now).status =
      statusOf (calculate_score sid db now).score := rfl

/-- C3: for every store, session and time, the status returned by the scorer
is FLAGGED iff the total score is ≥ 11, SUSPICIOUS iff it is ≥ 6 and < 11,
and NORMAL iff it is < 6; at the boundaries, 5 → NORMAL, 6 → SUSPICIOUS,
10 → SUSPICIOUS, 11 → FLAGGED. -/
theorem C3_status_thresholds (sid : String) (db : EventsDb) (now : Nat) :
    ((calculate_score sid db now).status = SessionStatus.FLAGGED ↔
        11 ≤ (calculate_score sid db now).score)
    ∧ ((calculate_score sid db now).status = SessionStatus.SUSPICIOUS ↔
        6 ≤ (calculate_score sid db now).score ∧
          (calculate_score sid db now).score < 11)
    ∧ ((calculate_score sid db now).status = SessionStatus.NORMAL ↔
        (calculate_score sid db now).score < 6)
    ∧ statusOf 5 = SessionStatus.NORMAL
    ∧ statusOf 6 = SessionStatus.SUSPICIOUS
    ∧ statusOf 10 = SessionStatus.SUSPICIOUS
    ∧ statusOf 11 = SessionStatus.FLAGGED := by
  have h := statusOf_iff (calculate_score sid db now).score
  rw [calculate_score_status_eq]
  exact ⟨h.1, h.2.1, h.2.2, by decide, by decide, by decide, by decide⟩

/-- Witness for C3: the threshold characterisation evaluated on the concrete
tab-change/copy store (whose score is 17, status FLAGGED). -/
theorem C3_status_thresholds_witness :
    (((calculate_score "s" dbTabCopy 20).status = SessionStatus.FLAGGED ↔
        11 ≤ (calculate_score "s" dbTabCopy 20).score)
    ∧ ((calculate_score "s" dbTabCopy 20).status = SessionStatus.SUSPICIOUS ↔
        6 ≤ (calculate_score "s" dbTabCopy 20).score ∧
          (calculate_score "s" dbTabCopy 20).score < 11)
    ∧ ((calculate_score "s" dbTabCopy 20).status = SessionStatus.NORMAL ↔
        (calculate_score "s" dbTabCopy 20).score < 6)
    ∧ statusOf 5 = SessionStatus.NORMAL
    ∧ statusOf 6 = SessionStatus.SUSPICIOUS
    ∧ statusOf 10 = SessionStatus.SUSPICIOUS
    ∧ statusOf 11 = SessionStatus.FLAGGED) :=
  C3_status_thresholds "s" dbTabCopy 20

/-! ## Session registry and scheduler selection (C1, C10) -/

theorem tickScoredIds_markEnded (reg : List (String × SessionRec))
    (sid : String) (t : Nat) :
    tickScoredIds (markEnded reg sid t) = tickScoredIds reg := by
  unfold tickScoredIds markEnded
  rw [List.map_map]
  apply List.map_congr_left
  intro p _
  by_cases h : p.1 = sid <;> simp [h]

theorem mem_tickScoredIds (reg : List (String × SessionRec)) (sid : String) :
    sid ∈ tickScoredIds reg ↔ ∃ rec, (sid, rec) ∈ reg := by
  unfold tickScoredIds
  constructor
  · intro h
    obtain ⟨p, hp, hf⟩ := List.mem_map.mp h
    subst hf
    exact ⟨p.2, by simpa using hp⟩
  · intro ⟨rec, hrec⟩
    exact List.mem_map.mpr ⟨(sid, rec), hrec, rfl⟩

/-- C1 counterexample: a session whose `end_time` has been set on disconnect
remains a key of `active_sessions` and is still selected for scoring by the
scheduler's `for session_id in list(active_sessions.keys())` — the claim that
a disconnected session is not scored is false. -/
theorem C1_counterexample_ended_session_scored :
    List.lookup "s" regEnded =
      some { start_time := 1, websocket := 0, event_count := 0,
             last_activity := 1, end_time := some 5 }
    ∧ "s" ∈ tickScoredIds regEnded := by
  decide

/-- C1 (amended): on every tick the scheduler scores exactly the session ids
present in the registry, each once (the dict's keys are distinct), with no
filter on `end_time` — marking a session ended does not change the set of
scored ids, so disconnected sessions continue to be scored. -/
theorem C1_tick_scores_every_registered_session
    (reg : List (String × SessionRec)) (sid : String) (t : Nat)
    (sid' : String) :
    tickScoredIds (markEnded reg sid t) = tickScoredIds reg
    ∧ (sid' ∈ tickScoredIds reg ↔ ∃ rec, (sid', rec) ∈ reg)
    ∧ ((tickScoredIds reg).Nodup → sid' ∈ tickScoredIds reg →
        (tickScoredIds reg).count sid' = 1) :=
  ⟨tickScoredIds_markEnded reg sid t, mem_tickScoredIds reg sid',
   fun h1 h2 => List.count_eq_one_of_mem h1 h2⟩

/-- Witness for C1 (amended): evaluated on the concrete one-session registry
whose session has ended. -/
theorem C1_tick_scores_every_registered_session_witness :
    (tickScoredIds (markEnded regEnded "s" 9) = tickScoredIds regEnded
    ∧ ("s" ∈ tickScoredIds regEnded ↔ ∃ rec, ("s", rec) ∈ regEnded)
    ∧ ((tickScoredIds regEnded).Nodup → "s" ∈ tickScoredIds regEnded →
        (tickScoredIds regEnded).count "s" = 1))
    ∧ (tickScoredIds regEnded).Nodup ∧ "s" ∈ tickScoredIds regEnded
    ∧ (tickScoredIds regEnded).count "s" = 1 :=
  ⟨C1_tick_scores_every_registered_session regEnded "s" 9 "s",
   by decide, by decide,
   (C1_tick_scores_every_registered_session regEnded "s" 9 "s").2.2
     (by decide) (by decide)⟩

theorem lookup_setSession (reg : List (String × SessionRec)) (sid : String)
    (rec : SessionRec) :
    List.lookup sid (setSession sid rec reg) = some rec := by
  induction reg with
  | nil => simp [setSession, List.lookup]
  | cons p rest ih =>
      obtain ⟨k, v⟩ := p
      by_cases h : k = sid
      · simp [setSession, h, List.lookup]
      · have hbe : (sid == k) = false := beq_eq_false_iff_ne.mpr (Ne.symm h)
        simp [setSession, h, List.lookup, hbe, ih]

theorem mem_tickScoredIds_setSession (reg : List (String × SessionRec))
    (sid : String) (rec : SessionRec) :
    sid ∈ tickScoredIds (setSession sid rec reg) := by
  induction reg with
  | nil => simp [setSession, tickScoredIds]
  | cons p rest ih =>
      obtain ⟨k, v⟩ := p
      by_cases h : k = sid
      · simp [setSession, h, tickScoredIds]
      · simp only [setSession, h, if_false, tickScoredIds, List.map_cons]
        exact List.mem_cons_of_mem k ih

/-- C10: connecting with a session id replaces the whole registry record —
event_count reset to 0, start_time and last_activity set to the connect time,
and no `end_time` key (so a previously set end_time is gone) — and the id is
selected for scoring on the next tick. -/
theorem C10_reconnect_replaces_record (reg : List (String × SessionRec))
    (sid : String) (ws t : Nat) :
    List.lookup sid (connectSession reg sid ws t) =
      some { start_time := t, websocket := ws, event_count := 0,
             last_activity := t, end_time := none }
    ∧ sid ∈ tickScoredIds (connectSession reg sid ws t) :=
  ⟨lookup_setSession reg sid _, mem_tickScoredIds_setSession reg sid _⟩

/-- Witness for C10: reconnecting session `"s"` of the concrete registry in
which it had already ended (its `end_time` was set to 5). -/
theorem C10_reconnect_replaces_record_witness :
    List.lookup "s" (connectSession regEnded "s" 3 8) =
      some { start_time := 8, websocket := 3, event_count := 0,
             last_activity := 8, end_time := none }
    ∧ "s" ∈ tickScoredIds (connectSession regEnded "s" 3 8) :=
  C10_reconnect_replaces_record regEnded "s" 3 8

/-! ## Buffer capacity (C4) -/

/-- C4: appending a raw event that pushes the buffer past the 1000 cap
compacts it, in one step, to exactly the 500 most recent events (a suffix of
length 500 of the appended buffer, still ending with the new event); the
score buffer likewise holds, after any append, the most recent
`min (previous length + 1) 100` records — at most 100. -/
theorem C4_buffer_compaction (buf : List Event) (e : Event)
    (bufS : List ScoreRecord) (r : ScoreRecord) :
    (1000 < (buf ++ [e]).length →
      (appendRawEvent buf e).length = 500
      ∧ (appendRawEvent buf e) <:+ (buf ++ [e])
      ∧ e ∈ appendRawEvent buf e)
    ∧ (appendScoreRecord bufS r).length = min (bufS.length + 1) 100
    ∧ (appendScoreRecord bufS r) <:+ (bufS ++ [r]) := by
  refine ⟨?_, ?_, ?_⟩
  · intro h
    have hb : (buf ++ [e]).length = buf.length + 1 := by simp
    refine ⟨?_, ?_, ?_⟩
    · simp only [appendRawEvent, if_pos h, List.length_drop]
      omega
    · simp only [appendRawEvent, if_pos h]
      exact List.drop_suffix _ _
    · have hle : (buf ++ [e]).length - 500 ≤ buf.length := by omega
      simp only [appendRawEvent, if_pos h]
      rw [List.drop_append_of_le_length hle]
      simp
  · have hb : (bufS ++ [r]).length = bufS.length + 1 := by simp
    by_cases h : 100 < (bufS ++ [r]).length
    · simp only [appendScoreRecord, if_pos h, List.length_drop]
      omega
    · simp only [appendScoreRecord, if_neg h]
      omega
  · by_cases h : 100 < (bufS ++ [r]).length
    · simp only [appendScoreRecord, if_pos h]
      exact List.drop_suffix _ _
    · simp only [appendScoreRecord, if_neg h]
      exact List.suffix_refl _

/-- Witness for C4: appending the 1001st event to a buffer of 1000 copies of
`ev0` compacts to exactly 500 events; appending a record to the empty score
buffer keeps one record. -/
theorem C4_buffer_compaction_witness :
    1000 < ((List.replicate 1000 ev0) ++ [ev0]).length
    ∧ ((appendRawEvent (List.replicate 1000 ev0) ev0).length = 500
      ∧ (appendRawEvent (List.replicate 1000 ev0) ev0) <:+
          ((List.replicate 1000 ev0) ++ [ev0])
      ∧ ev0 ∈ appendRawEvent (List.replicate 1000 ev0) ev0)
    ∧ (appendScoreRecord [] rec0).length =
        min (([] : List ScoreRecord).length + 1) 100
    ∧ (appendScoreRecord [] rec0) <:+ ([] ++ [rec0]) := by
  have h1000 : 1000 < ((List.replicate 1000 ev0) ++ [ev0]).length := by
    simp only [List.length_append, List.length_replicate, List.length_cons,
               List.length_nil]
    omega
  have h := C4_buffer_compaction (List.replicate 1000 ev0) ev0 [] rec0
  exact ⟨h1000, h.1 h1000, h.2.1, h.2.2⟩

/-! ## The tab-change → copy example (C5) -/

/-- C5: on the window holding exactly one `tab_change` and one `copy` 3
seconds later for session `"s"`, the scorer returns total 17 and status
FLAGGED, and the flags include the tab-switching, copy/paste and
tab-change-followed-by-copy/paste flags. -/
theorem C5_tab_copy_flagged :
    (calculate_score "s" dbTabCopy 20).score = 17
    ∧ (calculate_score "s" dbTabCopy 20).status = SessionStatus.FLAGGED
    ∧ "Tab switching detected (1 times)" ∈
        (calculate_score "s" dbTabCopy 20).flags
    ∧ "Copy/paste activity (1 times)" ∈
        (calculate_score "s" dbTabCopy 20).flags
    ∧ "Suspicious tab-change followed by copy/paste" ∈
        (calculate_score "s" dbTabCopy 20).flags := by
  decide

/-! ## Broadcast fan-out (C7) -/

theorem broadcastLoop_spec (fails : Nat → Bool) (conns : List Nat) :
    (broadcastLoop fails conns).1 = conns.filter (fun c => !(fails c))
    ∧ (broadcastLoop fails conns).2 = conns.filter fails := by
  induction conns with
  | nil => exact ⟨rfl, rfl⟩
  | cons c cs ih =>
      cases h : fails c
      · refine ⟨?_, ?_⟩ <;>
          simp [broadcastLoop, h, ih.1, ih.2, List.filter_cons]
      · refine ⟨?_, ?_⟩ <;>
          simp [broadcastLoop, h, ih.1, ih.2, List.filter_cons]

theorem foldl_erase_cons_of_ne (c : Nat) (xs L : List Nat)
    (h : ∀ y ∈ L, y ≠ c) :
    L.foldl (fun acc x => acc.erase x) (c :: xs)
      = c :: L.foldl (fun acc x => acc.erase x) xs := by
  induction L generalizing xs with
  | nil => rfl
  | cons y L' ih =>
      have hcy : ¬(c == y) = true := by
        have := h y (List.mem_cons_self y L')
        simp [this.symm]
      simp only [List.foldl_cons]
      rw [List.erase_cons_tail hcy]
      exact ih (xs.erase y) (fun z hz => h z (List.mem_cons_of_mem y hz))

theorem removeDisconnected_filter (fails : Nat → Bool) (conns : List Nat) :
    removeDisconnected conns (conns.filter fails)
      = conns.filter (fun c => !(fails c)) := by
  induction conns with
  | nil => rfl
  | cons c cs ih =>
      unfold removeDisconnected at ih ⊢
      cases h : fails c
      · rw [List.filter_cons_of_neg (by simp [h]),
            List.filter_cons_of_pos (by simp [h])]
        rw [foldl_erase_cons_of_ne]
        · rw [ih]
        · intro y hy he
          have hf := List.of_mem_filter hy
          rw [he] at hf
          simp [h] at hf
      · rw [List.filter_cons_of_pos (by simp [h]),
            List.filter_cons_of_neg (by simp [h])]
        simp only [List.foldl_cons, List.erase_cons_head]
        exact ih

/-- C7: during a broadcast fan-out, the message is delivered to exactly the
registered connections whose send does not fail (in registration order — a
failure never aborts the remaining sends), afterwards the connection list
holds exactly the non-failing connections (exactly the failing ones are
removed), and the set of pruned connections is exactly the failing ones (one
pass, no retry). -/
theorem C7_broadcast_failure_isolated (conns : List Nat) (fails : Nat → Bool) :
    (broadcast conns fails).1 = conns.filter (fun c => !(fails c))
    ∧ (broadcast conns fails).2 = conns.filter (fun c => !(fails c))
    ∧ (broadcastLoop fails conns).2 = conns.filter fails := by
  refine ⟨(broadcastLoop_spec fails conns).1, ?_,
          (broadcastLoop_spec fails conns).2⟩
  show removeDisconnected conns (broadcastLoop fails conns).2 = _
  rw [(broadcastLoop_spec fails conns).2, removeDisconnected_filter]

/-- Witness for C7: three connections where only connection 2 fails — 1 and 3
still receive the message and only 2 is removed. -/
theorem C7_broadcast_failure_isolated_witness :
    (broadcast [1, 2, 3] (fun c => c == 2)).1 =
        [1, 2, 3].filter (fun c => !(c == 2))
    ∧ (broadcast [1, 2, 3] (fun c => c == 2)).2 =
        [1, 2, 3].filter (fun c => !(c == 2))
    ∧ (broadcastLoop (fun c => c == 2) [1, 2, 3]).2 =
        [1, 2, 3].filter (fun c => c == 2) :=
  C7_broadcast_failure_isolated [1, 2, 3] (fun c => c == 2)

/-! ## Rapid gaze switching (C6) -/

theorem truthy_of_valid {g : Option String} (h : g ∈ validGazeValues) :
    truthy g = true := by
  simp only [validGazeValues, List.mem_cons, List.not_mem_nil, or_false] at h
  rcases h with h | h | h | h | h
  all_goals subst h
  all_goals rfl

theorem countGazeChanges_eq_spec (e0 : Event) (rest : List Event)
    (h : ∀ e ∈ e0 :: rest, truthy e.gaze_direction = true) :
    countGazeChanges e0.gaze_direction rest =
      specGazeTransitions (e0 :: rest) := by
  induction rest generalizing e0 with
  | nil => simp [countGazeChanges, specGazeTransitions]
  | cons e1 rest' ih =>
      have ht : truthy e0.gaze_direction = true := h e0 (by simp)
      have h' : ∀ e ∈ e1 :: rest', truthy e.gaze_direction = true :=
        fun e he => h e (List.mem_cons_of_mem _ he)
      have step : countGazeChanges e0.gaze_direction (e1 :: rest') =
          (if truthy e0.gaze_direction ∧
              e1.gaze_direction ≠ e0.gaze_direction ∧
              e1.gaze_direction ≠ some "center" then 1 else 0)
            + countGazeChanges e1.gaze_direction rest' := rfl
      rw [step, ih e1 h']
      unfold specGazeTransitions
      simp only [List.tail_cons, List.zip_cons_cons, List.countP_cons, ht,
                 true_and]
      by_cases hA : e1.gaze_direction ≠ e0.gaze_direction ∧
          e1.gaze_direction ≠ some "center"
      · simp only [hA, if_true, decide_eq_true_eq, if_pos hA]
        omega
      · simp only [hA, if_false, decide_eq_true_eq, if_neg hA]
        omega

/-- C6: the rapid-gaze-switching pattern contributes only when the window
holds more than 5 eye-tracking events; on windows of data-model gaze values
it adds 3 and the flag exactly when the number of consecutive-pair
transitions that change direction and do not land on `"center"` exceeds 3;
the three-event left/right/left window gets no rapid-switching flag. -/
theorem C6_rapid_gaze_switching (eye : List Event)
    (hv : ∀ e ∈ eye, e.gaze_direction ∈ validGazeValues) :
    (eye.length ≤ 5 → rapidGazePattern eye = (0, []))
    ∧ rapidGazePattern eye =
        (if 5 < eye.length ∧ 3 < specGazeTransitions eye then
          (3, ["Rapid gaze switching pattern detected"])
         else (0, []))
    ∧ rapidGazePattern [eyeL, eyeR, eyeL2] = (0, [])
    ∧ "Rapid gaze switching pattern detected" ∉
        (calculate_score "s" dbGaze3 20).flags := by
  refine ⟨?_, ?_, by decide, by decide⟩
  · intro hle
    unfold rapidGazePattern
    rw [if_neg (by omega)]
  · cases eye with
    | nil => simp [rapidGazePattern, specGazeTransitions]
    | cons e0 rest =>
        have hcnt : countGazeChanges none (e0 :: rest) =
            specGazeTransitions (e0 :: rest) := by
          have hstep : countGazeChanges none (e0 :: rest) =
              countGazeChanges e0.gaze_direction rest := by
            simp [countGazeChanges, truthy]
          rw [hstep]
          exact countGazeChanges_eq_spec e0 rest
            (fun e he => truthy_of_valid (hv e he))
        unfold rapidGazePattern
        rw [hcnt]
        by_cases h5 : 5 < (e0 :: rest).length
        · rw [if_pos h5]
          by_cases h3 : 3 < specGazeTransitions (e0 :: rest)
          · rw [if_pos h3, if_pos ⟨h5, h3⟩]
          · rw [if_neg h3, if_neg (by tauto)]
        · rw [if_neg h5, if_neg (by tauto)]

/-- Witness for C6: the characterisation evaluated on the six-event
alternating-gaze window (5 counted transitions, so the pattern fires). -/
theorem C6_rapid_gaze_switching_witness :
    ((eyeAlternating.length ≤ 5 → rapidGazePattern eyeAlternating = (0, []))
    ∧ rapidGazePattern eyeAlternating =
        (if 5 < eyeAlternating.length ∧
            3 < specGazeTransitions eyeAlternating then
          (3, ["Rapid gaze switching pattern detected"])
         else (0, []))
    ∧ rapidGazePattern [eyeL, eyeR, eyeL2] = (0, [])
    ∧ "Rapid gaze switching pattern detected" ∉
        (calculate_score "s" dbGaze3 20).flags) :=
  C6_rapid_gaze_switching eyeAlternating (by decide)

/-! ## Determinism and order-invariance (C8) -/

/-- C8: on fixed inputs the scorer is deterministic; the eye-tracking, audio
and screen sub-scorers (score, flags and counters alike) are invariant under
permutation of the window; and the rapid-gaze pattern detector is not — the
alternating and the grouped six-event windows are permutations of each other
yet get different pattern results. -/
theorem C8_determinism_and_order_invariance (sid : String) (db : EventsDb)
    (now : Nat) (w w' : List Event) (h : w.Perm w') :
    calculate_score sid db now = calculate_score sid db now
    ∧ score_eye_tracking w = score_eye_tracking w'
    ∧ score_audio w = score_audio w'
    ∧ score_screen w = score_screen w'
    ∧ eyeAlternating.Perm eyeGrouped
    ∧ rapidGazePattern eyeAlternating ≠ rapidGazePattern eyeGrouped := by
  refine ⟨rfl, ?_, ?_, ?_, by decide, by decide⟩
  · have hsum : (w.map eyeEventScore).sum = (w'.map eyeEventScore).sum :=
      (h.map eyeEventScore).sum_eq
    have h1 := List.Perm.countP_eq (fun e => decide (0 < eyeGazeScore e)) h
    have h2 := List.Perm.countP_eq (fun e => decide (1 < e.face_count)) h
    have h3 :=
      List.Perm.countP_eq (fun e => decide (headMovementSuspicious e)) h
    simp only [score_eye_tracking]
    rw [hsum, h1, h2, h3]
  · have hsum : (w.map audioEventScore).sum = (w'.map audioEventScore).sum :=
      (h.map audioEventScore).sum_eq
    have h1 := List.Perm.countP_eq (fun e => e.speech_detected) h
    have h2 := List.Perm.countP_eq (fun e => e.multiple_voices) h
    have h3 :=
      List.Perm.countP_eq (fun e => decide (70 < e.background_noise_level)) h
    simp only [score_audio]
    rw [hsum, h1, h2, h3]
  · have hsum : (w.map screenEventScore).sum = (w'.map screenEventScore).sum :=
      (h.map screenEventScore).sum_eq
    have h1 :=
      List.Perm.countP_eq (fun e => e.event_type == some "tab_change") h
    have h2 := List.Perm.countP_eq (fun e => e.event_type == some "copy") h
    have h3 := List.Perm.countP_eq (fun e => e.event_type == some "paste") h
    have h4 :=
      List.Perm.countP_eq (fun e => e.event_type == some "window_blur") h
    simp only [score_screen]
    rw [hsum, h1, h2, h3, h4]

/-- Witness for C8: the invariance applied to the two-element window and its
reversal. -/
theorem C8_determinism_and_order_invariance_witness :
    (calculate_score "s" dbTabCopy 20 = calculate_score "s" dbTabCopy 20
    ∧ score_eye_tracking [eyeL, eyeR] = score_eye_tracking [eyeR, eyeL]
    ∧ score_audio [eyeL, eyeR] = score_audio [eyeR, eyeL]
    ∧ score_screen [eyeL, eyeR] = score_screen [eyeR, eyeL]
    ∧ eyeAlternating.Perm eyeGrouped
    ∧ rapidGazePattern eyeAlternating ≠ rapidGazePattern eyeGrouped) :=
  C8_determinism_and_order_invariance "s" dbTabCopy 20 [eyeL, eyeR]
    [eyeR, eyeL] (by decide)

/-! ## Scoring leaves the store unchanged (C9) -/

/-- C9: a scoring pass is read-only on the event store — the store it returns
is the store it was given, the window it scores holds only events that are in
the store's buffers, in store order (each window list is a sublist of its
buffer), and even the scorer-local window is only reordered by the pattern
detector's in-place screen sort (a permutation, no event deleted or
modified), the other categories passing through untouched. -/
theorem C9_scoring_is_read_only (sid : String) (db : EventsDb) (now : Nat) :
    (calculate_score_full sid db now).2.2 = db
    ∧ (get_recent_events sid db (now - 10)).eye_tracking.Sublist
        db.eye_tracking
    ∧ (get_recent_events sid db (now - 10)).audio.Sublist db.audio
    ∧ (get_recent_events sid db (now - 10)).screen.Sublist db.screen
    ∧ (get_recent_events sid db (now - 10)).system.Sublist db.system
    ∧ ((calculate_score_full sid db now).2.1).screen.Perm
        (get_recent_events sid db (now - 10)).screen
    ∧ ((calculate_score_full sid db now).2.1).eye_tracking =
        (get_recent_events sid db (now - 10)).eye_tracking
    ∧ ((calculate_score_full sid db now).2.1).audio =
        (get_recent_events sid db (now - 10)).audio
    ∧ ((calculate_score_full sid db now).2.1).system =
        (get_recent_events sid db (now - 10)).system := by
  refine ⟨rfl, getRecentList_sublist sid (now - 10) db.eye_tracking,
          getRecentList_sublist sid (now - 10) db.audio,
          getRecentList_sublist sid (now - 10) db.screen,
          getRecentList_sublist sid (now - 10) db.system,
          ?_, rfl, rfl, rfl⟩
  show (sortScreenEvents (get_recent_events sid db (now - 10)).screen).Perm _
  exact List.perm_insertionSort _ _

/-- Witness for C9: the read-only facts evaluated on the concrete
tab-change/copy store. -/
theorem C9_scoring_is_read_only_witness :
    ((calculate_score_full "s" dbTabCopy 20).2.2 = dbTabCopy
    ∧ (get_recent_events "s" dbTabCopy (20 - 10)).eye_tracking.Sublist
        dbTabCopy.eye_tracking
    ∧ (get_recent_events "s" dbTabCopy (20 - 10)).audio.Sublist
        dbTabCopy.audio
    ∧ (get_recent_events "s" dbTabCopy (20 - 10)).screen.Sublist
        dbTabCopy.screen
    ∧ (get_recent_events "s" dbTabCopy (20 - 10)).system.Sublist
        dbTabCopy.system
    ∧ ((calculate_score_full "s" dbTabCopy 20).2.1).screen.Perm
        (get_recent_events "s" dbTabCopy (20 - 10)).screen
    ∧ ((calculate_score_full "s" dbTabCopy 20).2.1).eye_tracking =
        (get_recent_events "s" dbTabCopy (20 - 10)).eye_tracking
    ∧ ((calculate_score_full "s" dbTabCopy 20).2.1).audio =
        (get_recent_events "s" dbTabCopy (20 - 10)).audio
    ∧ ((calculate_score_full "s" dbTabCopy 20).2.1).system =
        (get_recent_events "s" dbTabCopy (20 - 10)).system) :=
  C9_scoring_is_read_only "s" dbTabCopy 20

end AIProctor
